import Mathlib

/-!
Verification development for the post-discharge medical-assistant core:
the turn orchestration state machine, the front-desk and domain-expert
handlers, the patient context provider, the reference retrieval engine
and the two-tier web-search provider, shallowly embedded from the Python
source.  External effects (the language-model calls, the SQLite storage
layer, the JSON deserializer, the two search backends) are passed in as
explicit parameters, so every function here is a pure, executable model
of the corresponding source function.
-/

/-! ### String containment (model of Python's `in` operator on strings) -/

/-- Prefix test on character lists: `strStarts needle hay` is true when
`needle` is an initial segment of `hay`. -/
def strStarts : List Char → List Char → Bool
  | [], _ => true
  | _ :: _, [] => false
  | a :: as, b :: bs => a == b && strStarts as bs

/-- Substring test on character lists. -/
def listHasSub (needle : List Char) : List Char → Bool
  | [] => needle.isEmpty
  | c :: rest => strStarts needle (c :: rest) || listHasSub needle rest

/-- Model of Python's `needle in haystack` on strings. -/
def strContains (haystack needle : String) : Bool :=
  listHasSub needle.data haystack.data

/-- Model of Python's `str.lower()` (and SQLite's `LOWER`): lowercase
character by character.  All vocabulary terms compared in this system
are ASCII, where the two agree. -/
def lowerString (s : String) : String :=
  String.mk (s.data.map Char.toLower)

theorem strStarts_refl (l : List Char) : strStarts l l = true := by
  induction l with
  | nil => rfl
  | cons a as ih => simp [strStarts, ih]

theorem listHasSub_self (l : List Char) : listHasSub l l = true := by
  cases l with
  | nil => rfl
  | cons c rest => simp [listHasSub, strStarts_refl]

theorem listHasSub_append_left (needle s t : List Char)
    (h : listHasSub needle t = true) : listHasSub needle (s ++ t) = true := by
  induction s with
  | nil => simpa using h
  | cons c cs ih => simp [listHasSub, ih]

theorem strContains_append_right (a b m : String)
    (h : strContains b m = true) : strContains (a ++ b) m = true := by
  unfold strContains at h ⊢
  rw [String.data_append]
  exact listHasSub_append_left _ _ _ h

/-! ### Data model: the Turn State (`backend/graph/state.py`) -/

/-- Emergency-contact structure stored (JSON-serialized) in the patient
store; see `scripts/generate_dummy_patients.py`. -/
structure EmergencyContact where
  name : String
  relationship : String
  phone : String
deriving Repr, DecidableEq

/-- Lab-result set stored (JSON-serialized) in the patient store.  The
numeric values are modelled as rationals. -/
structure LabResults where
  creatinine_mg_dl : Rat
  egfr_ml_min : Rat
  potassium_meq_l : Rat
  hemoglobin_g_dl : Rat
deriving Repr, DecidableEq

/-- A raw patient row as fetched from the SQLite `patients` table
(`scripts/setup_database.py`): the four nested fields are still the
serialized JSON text. -/
structure PatientRow where
  patient_id : Nat
  patient_name : String
  date_of_birth : String
  discharge_date : String
  admission_date : String
  primary_diagnosis : String
  secondary_diagnoses : String
  medications : String
  dietary_restrictions : String
  follow_up : String
  warning_signs : String
  discharge_instructions : String
  lab_results : String
  contact_number : String
  emergency_contact : String
deriving Repr, DecidableEq

/-- A fully parsed patient record: the four serialized fields have been
deserialized into structured values (`json.loads` in
`PatientRetrievalTool.get_patient_by_name`). -/
structure Patient where
  patient_id : Nat
  patient_name : String
  date_of_birth : String
  discharge_date : String
  admission_date : String
  primary_diagnosis : String
  secondary_diagnoses : List String
  medications : List String
  dietary_restrictions : String
  follow_up : String
  warning_signs : String
  discharge_instructions : String
  lab_results : LabResults
  contact_number : String
  emergency_contact : EmergencyContact
deriving Repr, DecidableEq

/-- The possible values of the `patient_data` dictionary held in a Turn
State: a real record, the `multiple_patients` error dictionary, or the
`database_error` error dictionary.  (`None` is modelled by
`Option.none` at the use sites.) -/
inductive PatientData where
  | record (p : Patient)
  | multipleError (message : String) (patients : List String)
  | databaseError (message : String)
deriving Repr, DecidableEq

/-- One conversation-history message. -/
structure HistoryMsg where
  role : String
  content : String
deriving Repr, DecidableEq

/-- A citation attached to a generated answer: the dictionaries appended
to `sources` in `ClinicalAgent._generate_response`. -/
structure Source where
  type : String
  reference : String
  excerpt : String
deriving Repr, DecidableEq

/-- The Turn State threaded through the orchestrator
(`backend/graph/state.py`, `AgentState`). -/
structure AgentState where
  patient_name : Option String
  patient_data : Option PatientData
  message : String
  conversation_history : List HistoryMsg
  current_agent : String
  should_route_to_clinical : Bool
  response : String
  sources : List Source
  session_id : String
deriving Repr, DecidableEq

/-! ### Patient Context Provider (`src/tools/patient_retrieval.py`) -/

/-- The outcome of `PatientRetrievalTool.get_patient_by_name`:
`notFound` models the Python `None` return, `disambiguation` models the
`multiple_patients` error dictionary, `dbError` models the
`database_error` error dictionary. -/
inductive LookupResult where
  | notFound
  | record (p : Patient)
  | disambiguation (message : String) (patients : List String)
  | dbError (message : String)
deriving Repr, DecidableEq

/-- Deserializers for the four JSON-serialized columns; this models the
`json.loads` calls (an external library) as explicit parameters, with
`Except` capturing a raised `JSONDecodeError`. -/
structure JsonCodec where
  parseStrList : String → Except String (List String)
  parseLabs : String → Except String LabResults
  parseContact : String → Except String EmergencyContact

/-- The rows selected by `WHERE LOWER(patient_name) LIKE LOWER('%name%')`:
a case-insensitive substring match on the stored names. -/
def matchingRows (rows : List PatientRow) (patient_name : String) : List PatientRow :=
  rows.filter (fun r => strContains (lowerString r.patient_name) (lowerString patient_name))

/-- Parsing of the single matched row: the four `json.loads` calls in
source order; the first failure raises (propagates in `Except`). -/
def parsePatient (codec : JsonCodec) (r : PatientRow) : Except String Patient := do
  let sd ← codec.parseStrList r.secondary_diagnoses
  let meds ← codec.parseStrList r.medications
  let labs ← codec.parseLabs r.lab_results
  let ec ← codec.parseContact r.emergency_contact
  pure
    { patient_id := r.patient_id
      patient_name := r.patient_name
      date_of_birth := r.date_of_birth
      discharge_date := r.discharge_date
      admission_date := r.admission_date
      primary_diagnosis := r.primary_diagnosis
      secondary_diagnoses := sd
      medications := meds
      dietary_restrictions := r.dietary_restrictions
      follow_up := r.follow_up
      warning_signs := r.warning_signs
      discharge_instructions := r.discharge_instructions
      lab_results := labs
      contact_number := r.contact_number
      emergency_contact := ec }

/-- `PatientRetrievalTool.get_patient_by_name`.  The `storage` argument
models the SQLite connect/execute/fetch sequence: `.ok rows` is the full
table content, `.error e` a raised storage exception.  Everything inside
the Python `try` block — including JSON parsing of the matched row — is
caught and turned into the `database_error` dictionary. -/
def get_patient_by_name (codec : JsonCodec)
    (storage : Except String (List PatientRow)) (patient_name : String) :
    LookupResult :=
  match storage with
  | .error e => .dbError ("Failed to retrieve patient data: " ++ e)
  | .ok rows =>
    match matchingRows rows patient_name with
    | [] => .notFound
    | [r] =>
      match parsePatient codec r with
      | .ok p => .record p
      | .error e => .dbError ("Failed to retrieve patient data: " ++ e)
    | results =>
      .disambiguation
        ("Found " ++ toString results.length ++
          " patients with similar names. Please be more specific.")
        (results.map (·.patient_name))

/-! ### Intent Classifier and Front-Desk Handler
(`backend/agents/receptionist.py`) -/

/-- The fixed medical vocabulary of
`ReceptionistAgent._should_route_to_clinical`. -/
def medical_keywords : List String :=
  ["symptom", "pain", "swelling", "medication", "side effect",
   "treatment", "diet", "dizzy", "nausea", "headache", "fever",
   "blood", "urine", "pressure", "worried", "concern", "help",
   "creatinine", "kidney", "dialysis", "doctor", "hospital",
   "emergency", "breathe", "chest", "heart"]

/-- The fixed handoff phrases checked against the drafted reply. -/
def routing_phrases : List String :=
  ["clinical ai agent", "medical question", "let me connect you",
   "route to clinical"]

/-- Lexical signal: the lowercased message contains a medical keyword. -/
def has_medical_keywords (message : String) : Bool :=
  medical_keywords.any (fun k => strContains (lowerString message) k)

/-- Discourse signal: the lowercased drafted reply contains a routing
phrase. -/
def indicates_routing (response : String) : Bool :=
  routing_phrases.any (fun p => strContains (lowerString response) p)

/-- `ReceptionistAgent._should_route_to_clinical`: logical OR of the
lexical signal on the message and the discourse signal on the reply. -/
def should_route_to_clinical_fn (message response : String) : Bool :=
  has_medical_keywords message || indicates_routing response

/-- Python truthiness of the optional `patient_data` dictionary: `None`
is falsy, every dictionary that occurs here (a record or one of the two
error dictionaries, all non-empty) is truthy. -/
def patientDataTruthy : Option PatientData → Bool
  | none => false
  | some _ => true

/-- Python truthiness of the optional `patient_name` string: `None` and
the empty string are falsy. -/
def patientNameTruthy : Option String → Bool
  | none => false
  | some s => !s.isEmpty

/-- Translation of a lookup outcome into the value stored in
`state["patient_data"]` by the Front-Desk Handler (`None` for the
not-found case, the corresponding dictionary otherwise). -/
def lookupToData : LookupResult → Option PatientData
  | .notFound => none
  | .record p => some (.record p)
  | .disambiguation m ps => some (.multipleError m ps)
  | .dbError m => some (.databaseError m)

/-- `ReceptionistAgent.process`.  `lookup` models
`patient_tool.get_patient_by_name`; `llm` models the drafted-reply
language-model call (an oracle: any function of the post-fetch patient
data and the message).  The handler fetches patient data only when
`patient_data` is falsy and `patient_name` is truthy, drafts a reply,
and sets the route-to-expert flag from the classifier. -/
def receptionistProcess (lookup : String → LookupResult)
    (llm : Option PatientData → String → String) (state : AgentState) :
    AgentState :=
  let patient_data :=
    if !patientDataTruthy state.patient_data &&
        patientNameTruthy state.patient_name then
      match state.patient_name with
      | some n => lookupToData (lookup n)
      | none => state.patient_data
    else state.patient_data
  let response_text := llm patient_data state.message
  let should_route := should_route_to_clinical_fn state.message response_text
  { state with
      patient_data := patient_data
      response := response_text
      current_agent := "receptionist"
      should_route_to_clinical := should_route }

/-! ### Web Search Provider (`backend/tools/web_search.py`) -/

/-- One result item returned by the primary (Tavily) provider. -/
structure TavilyResult where
  title : String
  url : String
  score : Rat
  content : String
deriving Repr, DecidableEq

/-- The primary provider's response payload. -/
structure TavilyResponse where
  answer : Option String
  results : List TavilyResult
deriving Repr, DecidableEq

/-- One result item returned by the secondary (DuckDuckGo) provider. -/
structure DDGResult where
  title : String
  href : String
  body : String
deriving Repr, DecidableEq

/-- Relevance stars derived from the provider score
(`"⭐⭐⭐" if score > 0.8 else "⭐⭐" if score > 0.5 else "⭐"`). -/
def relevanceStars (score : Rat) : String :=
  if score > (8 : Rat) / 10 then "⭐⭐⭐"
  else if score > (5 : Rat) / 10 then "⭐⭐"
  else "⭐"

/-- Numbered formatting of the primary provider's result items, starting
at index `i` (models the `enumerate(response["results"], 1)` loop; the
two-decimal float rendering of the score is abstracted by `toString`). -/
def formatTavilyItems (i : Nat) : List TavilyResult → String
  | [] => ""
  | r :: rest =>
    "\n" ++ toString i ++ ". **" ++ r.title ++ "**\n" ++
      "   📎 URL: " ++ r.url ++ "\n" ++
      "   " ++ relevanceStars r.score ++ " Relevance: " ++ toString r.score ++ "\n" ++
      "   📄 " ++ r.content ++ "\n" ++
      formatTavilyItems (i + 1) rest

/-- The string built by `_tavily_search` from a non-empty result set. -/
def formatTavilyResponse (resp : TavilyResponse) : String :=
  (match resp.answer with
   | some a => if !a.isEmpty then "📊 AI Summary: " ++ a ++ "\n" else ""
   | none => "") ++
  "\n🔍 Detailed Sources:\n" ++
  formatTavilyItems 1 resp.results

/-- `_tavily_search`.  `api_key` models `os.getenv("TAVILY_API_KEY")`
(falsy when absent or empty); `response` models the network call, with
`none` standing for a raised exception.  Returns `none` (Python `None`)
when there is no credential or the request raised; returns the fixed
no-results message when the result list is empty. -/
def tavily_search (api_key : Option String)
    (response : Option TavilyResponse) : Option String :=
  match api_key with
  | none => none
  | some k =>
    if k.isEmpty then none
    else
      match response with
      | none => none
      | some resp =>
        if resp.results.isEmpty then some "No web search results found."
        else some (formatTavilyResponse resp)

/-- Numbered formatting of the secondary provider's result items. -/
def formatDDGItems (i : Nat) : List DDGResult → String
  | [] => ""
  | r :: rest =>
    "\n" ++ toString i ++ ". **" ++ r.title ++ "**\n" ++
      "   📎 URL: " ++ r.href ++ "\n" ++
      "   📄 " ++ r.body ++ "\n" ++
      formatDDGItems (i + 1) rest

/-- `_duckduckgo_search`.  `response` models the DDGS call, with `none`
standing for a raised exception; an empty result list also yields
`none`. -/
def duckduckgo_search (response : Option (List DDGResult)) : Option String :=
  match response with
  | none => none
  | some results =>
    if results.isEmpty then none
    else some ("🔍 Web Search Results:\n" ++ formatDDGItems 1 results)

/-- The degraded-mode marker appended to secondary-provider output. -/
def fallbackMarker : String := "\n\n(Using fallback search engine)"

/-- The sentinel failure value of `web_search_tool`. -/
def webSearchSentinel : String := "ERROR: Both Tavily and DuckDuckGo searches failed."

/-- Acceptance test applied to the primary provider's return value:
`if tavily_result and "ERROR" not in tavily_result`. -/
def tavilyAccepted : Option String → Bool
  | none => false
  | some s => !s.isEmpty && !strContains s "ERROR"

/-- `web_search_tool`: primary provider first; if its return value is
rejected, the secondary provider with the degraded-mode marker; the
sentinel only when the secondary also fails. -/
def web_search_tool (api_key : Option String)
    (tavilyResp : Option TavilyResponse)
    (ddgResp : Option (List DDGResult)) : String :=
  let tavily_result := tavily_search api_key tavilyResp
  if tavilyAccepted tavily_result then tavily_result.getD ""
  else
    match duckduckgo_search ddgResp with
    | some ddg_result => ddg_result ++ fallbackMarker
    | none => webSearchSentinel

/-! ### Reference Retrieval Engine (`src/rag/rag_system.py`) -/

/-- One chunk of the precomputed index, with the metadata the source
reads (`doc.metadata.get('page')`, `doc.metadata.get('source')`,
`doc.page_content`). -/
structure Chunk where
  page : String
  source : String
  content : String
deriving Repr, DecidableEq

/-- A formatted source entry of a retrieval result. -/
structure RagSource where
  page : String
  source : String
  excerpt : String
deriving Repr, DecidableEq

/-- The dictionary returned by `NephrologyRAG.query`. -/
structure RagResult where
  answer : Option String
  sources : List RagSource
  success : Bool
  error : Option String
deriving Repr, DecidableEq

/-- Insertion into a list kept sorted by descending score. -/
def insertByScore (score : Chunk → Int) (c : Chunk) : List Chunk → List Chunk
  | [] => [c]
  | d :: ds =>
    if score d ≤ score c then c :: d :: ds
    else d :: insertByScore score c ds

/-- Sort by descending score (model of nearest-neighbor ranking). -/
def sortByScore (score : Chunk → Int) : List Chunk → List Chunk
  | [] => []
  | c :: cs => insertByScore score c (sortByScore score cs)

/-- The retriever configured with `search_kwargs={"k": 4}`: the four
best-scoring chunks of the index for the query (`score question` models
the similarity of each chunk to the embedded question). -/
def retrieveTopK (score : String → Chunk → Int) (question : String)
    (chunks : List Chunk) : List Chunk :=
  (sortByScore (score question) chunks).take 4

/-- `NephrologyRAG.query`.  `score` and `chunks` model the vector index,
`outcome` the chained retrieval + language-model call (`.error` for any
raised exception, `.ok answer` for the synthesized answer).  On success
the source docs are the top-4 retrieved chunks, each contributing a
`{page, source, excerpt}` entry with a 150-character excerpt bound. -/
def ragQuery (score : String → Chunk → Int) (chunks : List Chunk)
    (outcome : Except String String) (question : String)
    (return_sources : Bool) : RagResult :=
  match outcome with
  | .error e =>
    { answer := none, sources := [], success := false,
      error := some ("RAG query failed: " ++ e) }
  | .ok answer =>
    let source_docs := retrieveTopK score question chunks
    let sources :=
      if return_sources && !source_docs.isEmpty then
        source_docs.map (fun d =>
          { page := d.page, source := d.source,
            excerpt := d.content.take 150 ++ "..." : RagSource })
      else []
    { answer := some answer, sources := sources, success := true, error := none }

/-! ### Domain-Expert Handler (`backend/agents/clinical.py`) -/

/-- Temporal/recency vocabulary of `ClinicalAgent._needs_web_search`. -/
def web_keywords : List String :=
  ["recent", "latest", "new", "current", "2024", "2025",
   "study", "research", "trial", "breakthrough", "news",
   "update", "development", "discovery", "finding"]

/-- Research-topic vocabulary of `ClinicalAgent._needs_web_search`. -/
def research_topics : List String :=
  ["sglt2", "inhibitor", "clinical trial", "fda approved",
   "guideline", "recommendation", "protocol"]

/-- `ClinicalAgent._needs_web_search`: true when the lowercased message
matches the temporal vocabulary or the research-topic vocabulary. -/
def needs_web_search (message : String) : Bool :=
  let message_lower := lowerString message
  let has_temporal := web_keywords.any (fun k => strContains message_lower k)
  let has_research_topic := research_topics.any (fun t => strContains message_lower t)
  has_temporal || has_research_topic

/-- Patient-context block of `_generate_response` (lines 232-235): three
parts when `patient_data` is a real record (truthy, no `"error"` key),
nothing otherwise.  It contributes no Source. -/
def patientContextParts : Option PatientData → List String
  | some (.record p) =>
    ["PATIENT INFORMATION:",
     "Diagnosis: " ++ p.primary_diagnosis,
     "Medications: " ++ String.intercalate ", " p.medications]
  | _ => []

/-- Reference-retrieval block of `_generate_response` (lines 238-248):
the textbook header, the synthesized answer, and one `textbook` Source
per retrieval source entry. -/
def ragContextParts : Option RagResult → List String × List Source
  | some r =>
    if r.success then
      (["\nFROM NEPHROLOGY TEXTBOOK:", r.answer.getD ""],
       r.sources.map (fun s =>
         { type := "textbook",
           reference := "Comprehensive Clinical Nephrology, Page " ++ s.page,
           excerpt := s.excerpt }))
    else ([], [])
  | none => ([], [])

/-- Web-search block of `_generate_response` (lines 251-258): the web
header, the raw search text, and exactly one `web` Source whose excerpt
is a 200-character bound of the raw text. -/
def webContextParts : Option String → List String × List Source
  | some w =>
    if !w.isEmpty then
      (["\nFROM WEB SEARCH:", w],
       [{ type := "web", reference := "Web search results",
          excerpt := w.take 200 ++ "..." }])
    else ([], [])
  | none => ([], [])

/-- The merged context parts and accumulated sources of
`_generate_response`, in source order: patient block, then
reference-retrieval block, then web block. -/
def contextAndSources (patient_data : Option PatientData)
    (rag_result : Option RagResult) (web_results : Option String) :
    List String × List Source :=
  (patientContextParts patient_data ++ (ragContextParts rag_result).1 ++
     (webContextParts web_results).1,
   (ragContextParts rag_result).2 ++ (webContextParts web_results).2)

/-- The merged context string handed to the language model. -/
def mergedContext (patient_data : Option PatientData)
    (rag_result : Option RagResult) (web_results : Option String) : String :=
  let context_parts := (contextAndSources patient_data rag_result web_results).1
  if context_parts.isEmpty then "No additional context available."
  else String.intercalate "\n\n" context_parts

/-- The disclaimer marker checked on the model output. -/
def disclaimerMarker : String := "⚠️"

/-- The fixed disclaimer sentence appended when the marker is absent. -/
def disclaimerSentence : String :=
  "\n\n⚠️ This information is for educational purposes only. Always consult with your healthcare provider for medical advice."

/-- Post-condition enforcement of `_generate_response` (lines 276-277):
append the fixed disclaimer when the model output lacks the marker. -/
def ensureDisclaimer (response_text : String) : String :=
  if strContains response_text disclaimerMarker then response_text
  else response_text ++ disclaimerSentence

/-- `ClinicalAgent._generate_response`: builds the merged context and
source list, invokes the language model (whose output is the oracle
`llmOut`), and enforces the disclaimer post-condition. -/
def generate_response (patient_data : Option PatientData)
    (rag_result : Option RagResult) (web_results : Option String)
    (llmOut : String) : String × List Source :=
  (ensureDisclaimer llmOut,
   (contextAndSources patient_data rag_result web_results).2)

/-- The `rag_result` computed in `ClinicalAgent.process` step 1: present
only when the engine initialized (`rag_available`). -/
def ragResultOf (rag_available : Bool) (score : String → Chunk → Int)
    (chunks : List Chunk) (ragOutcome : Except String String)
    (message : String) : Option RagResult :=
  if rag_available then some (ragQuery score chunks ragOutcome message true)
  else none

/-- The `rag_used` flag of `ClinicalAgent.process`: the engine ran and
reported success. -/
def ragUsed (rag_available : Bool) (score : String → Chunk → Int)
    (chunks : List Chunk) (ragOutcome : Except String String)
    (message : String) : Bool :=
  match ragResultOf rag_available score chunks ragOutcome message with
  | some r => r.success
  | none => false

/-- The web-search trigger of `ClinicalAgent.process` step 2:
`if self._needs_web_search(message) or not rag_used`. -/
def webSearchAttempted (rag_available : Bool) (score : String → Chunk → Int)
    (chunks : List Chunk) (ragOutcome : Except String String)
    (message : String) : Bool :=
  needs_web_search message ||
    !ragUsed rag_available score chunks ragOutcome message

/-- The `web_results` value after step 2: the web-search tool output
when a search was attempted (`webRaw` models `web_search_tool(message)`),
otherwise `None`. -/
def webResultsOf (rag_available : Bool) (score : String → Chunk → Int)
    (chunks : List Chunk) (ragOutcome : Except String String)
    (webRaw : String) (message : String) : Option String :=
  if webSearchAttempted rag_available score chunks ragOutcome message then
    some webRaw
  else none

/-- The `web_used` flag: a search ran, returned a truthy string, and the
string does not contain `"ERROR"`. -/
def webUsed (rag_available : Bool) (score : String → Chunk → Int)
    (chunks : List Chunk) (ragOutcome : Except String String)
    (webRaw : String) (message : String) : Bool :=
  match webResultsOf rag_available score chunks ragOutcome webRaw message with
  | some w => !w.isEmpty && !strContains w "ERROR"
  | none => false

/-- The retrieval argument handed to `_generate_response`:
`rag_result if rag_used else None`. -/
def ragArgument (rag_available : Bool) (score : String → Chunk → Int)
    (chunks : List Chunk) (ragOutcome : Except String String)
    (message : String) : Option RagResult :=
  if ragUsed rag_available score chunks ragOutcome message then
    ragResultOf rag_available score chunks ragOutcome message
  else none

/-- The web argument handed to `_generate_response`:
`web_results if web_used else None`. -/
def webArgument (rag_available : Bool) (score : String → Chunk → Int)
    (chunks : List Chunk) (ragOutcome : Except String String)
    (webRaw : String) (message : String) : Option String :=
  if webUsed rag_available score chunks ragOutcome webRaw message then
    webResultsOf rag_available score chunks ragOutcome webRaw message
  else none

/-- `ClinicalAgent.process`: queries the retrieval engine, conditionally
attempts web search, generates the final response, and updates the Turn
State — response, sources, handler tag, and the route flag cleared. -/
def clinicalProcess (rag_available : Bool) (score : String → Chunk → Int)
    (chunks : List Chunk) (ragOutcome : Except String String)
    (webRaw : String) (llmOut : String) (state : AgentState) : AgentState :=
  let message := state.message
  let rs := generate_response state.patient_data
    (ragArgument rag_available score chunks ragOutcome message)
    (webArgument rag_available score chunks ragOutcome webRaw message)
    llmOut
  { state with
      response := rs.1
      sources := rs.2
      current_agent := "clinical"
      should_route_to_clinical := false }

/-! ### Turn Orchestrator (`backend/graph/workflow.py`) -/

/-- The two workflow nodes. -/
inductive WNode where
  | receptionist
  | clinical
deriving Repr, DecidableEq

/-- The `Literal["clinical", "end"]` routing target. -/
inductive RouteTarget where
  | clinical
  | stop
deriving Repr, DecidableEq

/-- `route_decision`: route to the domain expert exactly when the
route-to-expert flag of the resulting Turn State is set. -/
def route_decision (state : AgentState) : RouteTarget :=
  if state.should_route_to_clinical then .clinical else .stop

/-- A compiled workflow: entry node, per-node handler, and the edge map
(`none` is the `END` node). -/
structure CompiledWorkflow where
  entry : WNode
  run_node : WNode → AgentState → AgentState
  next_node : WNode → AgentState → Option WNode

/-- `create_workflow`: entry point `receptionist`; conditional edges
from `receptionist` via `route_decision` (`"clinical" ↦ clinical`,
`"end" ↦ END`); unconditional edge `clinical → END`. -/
def create_workflow (recep clin : AgentState → AgentState) :
    CompiledWorkflow where
  entry := .receptionist
  run_node
    | .receptionist => recep
    | .clinical => clin
  next_node
    | .receptionist, s =>
      match route_decision s with
      | .clinical => some .clinical
      | .stop => none
    | .clinical, _ => none

/-- Fuel-indexed execution of a compiled workflow from a node, returning
the final Turn State and the trace of nodes run. -/
def runFrom (w : CompiledWorkflow) : Nat → WNode → AgentState →
    AgentState × List WNode
  | 0, _, s => (s, [])
  | fuel + 1, n, s =>
    let s' := w.run_node n s
    match w.next_node n s' with
    | none => (s', [n])
    | some n' =>
      let r := runFrom w fuel n' s'
      (r.1, n :: r.2)

/-- `workflow.invoke`: run the compiled graph from its entry point (two
nodes and an acyclic edge map, so any fuel of at least 2 is exact). -/
def workflowInvoke (recep clin : AgentState → AgentState)
    (state : AgentState) : AgentState × List WNode :=
  let w := create_workflow recep clin
  runFrom w 4 w.entry state

/-! ### Theorems -/

theorem strContains_self (s : String) : strContains s s = true :=
  listHasSub_self s.data

/-- C1: every response produced by the Domain-Expert Handler contains
the disclaimer marker — when the language-model output lacks it, the
fixed disclaimer sentence is appended, so the returned response text
always contains the marker regardless of model output. -/
theorem clinical_response_always_has_disclaimer
    (rag_available : Bool) (score : String → Chunk → Int)
    (chunks : List Chunk) (ragOutcome : Except String String)
    (webRaw llmOut : String) (s : AgentState) :
    strContains
      (clinicalProcess rag_available score chunks ragOutcome webRaw llmOut s).response
      disclaimerMarker = true := by
  show strContains (ensureDisclaimer llmOut) disclaimerMarker = true
  unfold ensureDisclaimer
  by_cases h : strContains llmOut disclaimerMarker = true
  · simp [h]
  · simp only [Bool.not_eq_true] at h
    simp only [h, if_false]
    exact strContains_append_right llmOut disclaimerSentence disclaimerMarker
      (by decide)

/-- C4: for every input Turn State, the state returned by the
Domain-Expert Handler has the route-to-expert flag cleared to `false`,
signalling that no further routing occurs. -/
theorem clinical_clears_route_flag
    (rag_available : Bool) (score : String → Chunk → Int)
    (chunks : List Chunk) (ragOutcome : Except String String)
    (webRaw llmOut : String) (s : AgentState) :
    (clinicalProcess rag_available score chunks ragOutcome webRaw llmOut s).should_route_to_clinical
      = false := rfl

/-- C3: every turn starts at the front-desk node; after it runs, the
orchestrator transitions to the domain-expert node exactly when the
route-to-expert flag of the resulting Turn State is true, and otherwise
terminates; the domain-expert node always terminates, so it runs at most
once per turn and is never the entry point. -/
theorem orchestrator_single_handoff (recep clin : AgentState → AgentState)
    (s : AgentState) :
    workflowInvoke recep clin s =
      (if (recep s).should_route_to_clinical then
        (clin (recep s), [WNode.receptionist, WNode.clinical])
      else (recep s, [WNode.receptionist])) ∧
    (workflowInvoke recep clin s).2.head? = some WNode.receptionist ∧
    (workflowInvoke recep clin s).2.count WNode.clinical ≤ 1 := by
  have hmain : workflowInvoke recep clin s =
      (if (recep s).should_route_to_clinical then
        (clin (recep s), [WNode.receptionist, WNode.clinical])
      else (recep s, [WNode.receptionist])) := by
    unfold workflowInvoke create_workflow runFrom route_decision
    by_cases h : (recep s).should_route_to_clinical <;>
      simp [h, runFrom]
  refine ⟨hmain, ?_, ?_⟩ <;> rw [hmain] <;>
    by_cases h : (recep s).should_route_to_clinical <;> simp [h]

/-- Sample Turn State used to instantiate proved contracts. -/
def sampleState : AgentState :=
  { patient_name := none
    patient_data := none
    message := "I have chest pain"
    conversation_history := []
    current_agent := "receptionist"
    should_route_to_clinical := false
    response := ""
    sources := []
    session_id := "session-1" }

/-- A concrete lookup oracle (always not-found). -/
def constLookup : String → LookupResult := fun _ => .notFound

/-- A concrete drafted-reply oracle. -/
def constLlm : Option PatientData → String → String := fun _ _ => "Hello!"

/-- C2: after the Front-Desk Handler runs, the route-to-expert flag is
the logical OR of the lexical signal on the message and the discourse
signal on the drafted reply; in particular, a lexical medical-keyword
match in the message alone forces the flag to true, regardless of the
reply text. -/
theorem front_desk_routes_on_medical_keyword
    (lookup : String → LookupResult)
    (llm : Option PatientData → String → String) (s : AgentState) :
    (receptionistProcess lookup llm s).should_route_to_clinical =
      (has_medical_keywords s.message ||
        indicates_routing (receptionistProcess lookup llm s).response) ∧
    (has_medical_keywords s.message = true →
      (receptionistProcess lookup llm s).should_route_to_clinical = true) := by
  constructor
  · rfl
  · intro h
    show should_route_to_clinical_fn s.message _ = true
    simp [should_route_to_clinical_fn, h]

/-- Witness for C2 at a concrete medical message. -/
theorem front_desk_routes_on_medical_keyword_witness :
    has_medical_keywords "I have chest pain" = true ∧
    (receptionistProcess constLookup constLlm sampleState).should_route_to_clinical = true :=
  ⟨by decide,
   (front_desk_routes_on_medical_keyword constLookup constLlm sampleState).2 (by decide)⟩

/-- C10: when the Turn State's patient-data field is already populated
(including by a previously returned disambiguation or error result),
the Front-Desk Handler performs no lookup — its output does not depend
on the lookup oracle at all — and leaves patient data unchanged; a
lookup happens exactly when patient data is empty and a (non-empty)
patient name is present, in which case the stored value is the lookup
outcome. -/
theorem front_desk_lookup_frame
    (lookup lookup2 : String → LookupResult)
    (llm : Option PatientData → String → String) (s : AgentState) :
    (patientDataTruthy s.patient_data = true →
      (receptionistProcess lookup llm s).patient_data = s.patient_data ∧
      receptionistProcess lookup llm s = receptionistProcess lookup2 llm s) ∧
    (∀ n, s.patient_data = none → s.patient_name = some n → n.isEmpty = false →
      (receptionistProcess lookup llm s).patient_data = lookupToData (lookup n)) := by
  constructor
  · intro h
    unfold receptionistProcess
    simp [h]
  · intro n hpd hpn hne
    unfold receptionistProcess
    simp [hpd, hpn, patientDataTruthy, patientNameTruthy, hne]

/-- Witness for C10: a populated error-result patient-data field is left
untouched, and an empty one is filled from the lookup. -/
theorem front_desk_lookup_frame_witness :
    patientDataTruthy (some (.databaseError "boom")) = true ∧
    (receptionistProcess constLookup constLlm
        { sampleState with patient_data := some (.databaseError "boom") }).patient_data
      = some (.databaseError "boom") ∧
    (receptionistProcess constLookup constLlm
        { sampleState with patient_name := some "Ann" }).patient_data
      = lookupToData (constLookup "Ann") :=
  ⟨rfl,
   ((front_desk_lookup_frame constLookup constLookup constLlm
      { sampleState with patient_data := some (.databaseError "boom") }).1 rfl).1,
   (front_desk_lookup_frame constLookup constLookup constLlm
      { sampleState with patient_name := some "Ann" }).2 "Ann" rfl rfl rfl⟩

/-- C5: patient lookup never raises past its boundary — it is a total
function into structured results: a storage failure yields the
`database_error` result carrying a message, zero case-insensitive
substring matches yield the not-found result, and more than one match
yields the disambiguation result carrying every candidate name. -/
theorem patient_lookup_outcomes (codec : JsonCodec)
    (storage : Except String (List PatientRow)) (name : String) :
    (∀ e, storage = .error e →
      get_patient_by_name codec storage name =
        .dbError ("Failed to retrieve patient data: " ++ e)) ∧
    (∀ rows, storage = .ok rows → matchingRows rows name = [] →
      get_patient_by_name codec storage name = .notFound) ∧
    (∀ rows, storage = .ok rows → 2 ≤ (matchingRows rows name).length →
      get_patient_by_name codec storage name =
        .disambiguation
          ("Found " ++ toString (matchingRows rows name).length ++
            " patients with similar names. Please be more specific.")
          ((matchingRows rows name).map (·.patient_name))) := by
  refine ⟨?_, ?_, ?_⟩
  · rintro e rfl
    rfl
  · rintro rows rfl h
    simp only [get_patient_by_name]
    rw [h]
  · rintro rows rfl h
    simp only [get_patient_by_name]
    rcases hm : matchingRows rows name with _ | ⟨r, _ | ⟨r2, rest⟩⟩
    · rw [hm] at h; simp at h
    · rw [hm] at h; simp at h
    · rfl

/-- A concrete deserialization oracle for witnesses. -/
def trivCodec : JsonCodec :=
  { parseStrList := fun _ => .ok []
    parseLabs := fun _ => .ok { creatinine_mg_dl := 2, egfr_ml_min := 40,
                                potassium_meq_l := 4, hemoglobin_g_dl := 10 }
    parseContact := fun _ => .ok { name := "Kim", relationship := "Spouse",
                                   phone := "555" } }

/-- A concrete stored patient row with the given id and name. -/
def rowNamed (id : Nat) (nm : String) : PatientRow :=
  { patient_id := id
    patient_name := nm
    date_of_birth := "1960-01-01"
    discharge_date := "2025-01-10"
    admission_date := "2025-01-02"
    primary_diagnosis := "Chronic Kidney Disease Stage 3"
    secondary_diagnoses := "[]"
    medications := "[]"
    dietary_restrictions := "Low sodium"
    follow_up := "Nephrology clinic in 2 weeks"
    warning_signs := "Swelling"
    discharge_instructions := "Monitor blood pressure daily"
    lab_results := "serialized-labs"
    contact_number := "555-0100"
    emergency_contact := "serialized-contact" }

/-- Witness for C5: the three outcome branches at concrete inputs. -/
theorem patient_lookup_outcomes_witness :
    get_patient_by_name trivCodec (.error "disk full") "john" =
      .dbError "Failed to retrieve patient data: disk full" ∧
    get_patient_by_name trivCodec (.ok []) "john" = .notFound ∧
    get_patient_by_name trivCodec
        (.ok [rowNamed 1 "Ann Lee", rowNamed 2 "Anna Cole"]) "ann" =
      .disambiguation
        ("Found " ++
          toString (matchingRows [rowNamed 1 "Ann Lee", rowNamed 2 "Anna Cole"] "ann").length
          ++ " patients with similar names. Please be more specific.")
        ((matchingRows [rowNamed 1 "Ann Lee", rowNamed 2 "Anna Cole"] "ann").map
          (·.patient_name)) :=
  ⟨(patient_lookup_outcomes trivCodec (.error "disk full") "john").1 "disk full" rfl,
   (patient_lookup_outcomes trivCodec (.ok []) "john").2.1 [] rfl rfl,
   (patient_lookup_outcomes trivCodec
      (.ok [rowNamed 1 "Ann Lee", rowNamed 2 "Anna Cole"]) "ann").2.2
      [rowNamed 1 "Ann Lee", rowNamed 2 "Anna Cole"] rfl (by decide)⟩

/-- C9: for every name query matching exactly one stored row, lookup
returns the fully parsed record — the secondary-diagnoses, medications,
lab-results and emergency-contact fields of the returned value are the
deserialized structured values produced by the JSON decoder, not the raw
serialized text stored in the row. -/
theorem single_match_returns_parsed_record (codec : JsonCodec)
    (storage : Except String (List PatientRow)) (name : String)
    (rows : List PatientRow) (r : PatientRow) (sd meds : List String)
    (labs : LabResults) (ec : EmergencyContact) :
    storage = .ok rows → matchingRows rows name = [r] →
    codec.parseStrList r.secondary_diagnoses = .ok sd →
    codec.parseStrList r.medications = .ok meds →
    codec.parseLabs r.lab_results = .ok labs →
    codec.parseContact r.emergency_contact = .ok ec →
    get_patient_by_name codec storage name =
      .record
        { patient_id := r.patient_id
          patient_name := r.patient_name
          date_of_birth := r.date_of_birth
          discharge_date := r.discharge_date
          admission_date := r.admission_date
          primary_diagnosis := r.primary_diagnosis
          secondary_diagnoses := sd
          medications := meds
          dietary_restrictions := r.dietary_restrictions
          follow_up := r.follow_up
          warning_signs := r.warning_signs
          discharge_instructions := r.discharge_instructions
          lab_results := labs
          contact_number := r.contact_number
          emergency_contact := ec } := by
  rintro rfl hm h1 h2 h3 h4
  simp only [get_patient_by_name]
  rw [hm]
  simp only [parsePatient, h1, h2, h3, h4]
  rfl

/-- Witness for C9: a single concrete match comes back as the parsed
record built from the decoder's structured outputs. -/
theorem single_match_returns_parsed_record_witness :
    matchingRows [rowNamed 1 "Ann Lee"] "ann" = [rowNamed 1 "Ann Lee"] ∧
    get_patient_by_name trivCodec (.ok [rowNamed 1 "Ann Lee"]) "ann" =
      .record
        { patient_id := 1
          patient_name := "Ann Lee"
          date_of_birth := "1960-01-01"
          discharge_date := "2025-01-10"
          admission_date := "2025-01-02"
          primary_diagnosis := "Chronic Kidney Disease Stage 3"
          secondary_diagnoses := []
          medications := []
          dietary_restrictions := "Low sodium"
          follow_up := "Nephrology clinic in 2 weeks"
          warning_signs := "Swelling"
          discharge_instructions := "Monitor blood pressure daily"
          lab_results := { creatinine_mg_dl := 2, egfr_ml_min := 40,
                           potassium_meq_l := 4, hemoglobin_g_dl := 10 }
          contact_number := "555-0100"
          emergency_contact := { name := "Kim", relationship := "Spouse",
                                 phone := "555" } } :=
  ⟨by decide,
   single_match_returns_parsed_record trivCodec (.ok [rowNamed 1 "Ann Lee"]) "ann"
     [rowNamed 1 "Ann Lee"] (rowNamed 1 "Ann Lee") [] []
     { creatinine_mg_dl := 2, egfr_ml_min := 40,
       potassium_meq_l := 4, hemoglobin_g_dl := 10 }
     { name := "Kim", relationship := "Spouse", phone := "555" }
     rfl (by decide) rfl rfl rfl rfl⟩

/-- An empty primary-provider response (zero results). -/
def emptyTavilyResponse : TavilyResponse := { answer := none, results := [] }

/-- A non-empty secondary-provider result set. -/
def sampleDDGResults : List DDGResult :=
  [{ title := "CKD overview", href := "https://example.org/ckd",
     body := "Overview of chronic kidney disease." }]

/-- C7 counterexample: when the primary provider returns an empty result
set, `web_search_tool` returns the fixed no-results message directly —
the output is identical whether or not the secondary provider has
results, and it carries no degraded-mode marker, so the secondary
provider is not attempted on an empty primary result. -/
theorem web_search_empty_primary_skips_fallback :
    web_search_tool (some "key") (some emptyTavilyResponse) (some sampleDDGResults) =
      "No web search results found." ∧
    web_search_tool (some "key") (some emptyTavilyResponse) none =
      "No web search results found." ∧
    strContains
      (web_search_tool (some "key") (some emptyTavilyResponse) (some sampleDDGResults))
      "(Using fallback search engine)" = false := by
  refine ⟨rfl, rfl, ?_⟩
  decide

/-- C7 (amended): the primary provider is attempted first; when it fails
with no API credential or a raised request error (returning `None` —
but not on an empty result set, which is reported as a no-results
message without fallback), the secondary provider is attempted and its
output carries the degraded-mode marker; the sentinel failure value is
returned only when the primary is rejected and the secondary also
fails. -/
theorem web_search_fallback_amended (api_key : Option String)
    (tavilyResp : Option TavilyResponse)
    (ddgResp : Option (List DDGResult)) :
    (tavily_search api_key tavilyResp = none →
      web_search_tool api_key tavilyResp ddgResp =
        (match duckduckgo_search ddgResp with
         | some d => d ++ fallbackMarker
         | none => webSearchSentinel)) ∧
    (web_search_tool api_key tavilyResp ddgResp = webSearchSentinel →
      tavilyAccepted (tavily_search api_key tavilyResp) = false ∧
      duckduckgo_search ddgResp = none) := by
  constructor
  · intro h
    unfold web_search_tool
    rw [h]
    rfl
  · intro h
    simp only [web_search_tool] at h
    by_cases hacc : tavilyAccepted (tavily_search api_key tavilyResp) = true
    · exfalso
      rcases ht : tavily_search api_key tavilyResp with _ | s
      · rw [ht] at hacc; exact absurd hacc (by decide)
      · rw [ht] at hacc h
        simp only [hacc, if_true, Option.getD] at h
        have hx : strContains s "ERROR" = false := by
          simp only [tavilyAccepted] at hacc
          cases hsc : strContains s "ERROR" with
          | false => rfl
          | true => rw [hsc] at hacc; simp at hacc
        rw [h] at hx
        exact absurd hx (by decide)
    · simp only [Bool.not_eq_true] at hacc
      rw [hacc] at h
      simp only [Bool.false_eq_true, if_false] at h
      refine ⟨hacc, ?_⟩
      rcases hd : duckduckgo_search ddgResp with _ | d
      · rfl
      · exfalso
        rw [hd] at h
        simp only at h
        have hc : strContains webSearchSentinel fallbackMarker = true := by
          rw [← h]
          exact strContains_append_right d fallbackMarker fallbackMarker
            (strContains_self fallbackMarker)
        exact absurd hc (by decide)

/-- Witness for C7: with no API credential the primary fails and, with
the secondary also failing, the sentinel is returned. -/
theorem web_search_fallback_amended_witness :
    tavily_search none none = none ∧
    web_search_tool none none none = webSearchSentinel :=
  ⟨rfl, (web_search_fallback_amended none none none).1 rfl⟩

/-- A do-nothing similarity oracle used to instantiate proved contracts. -/
def zeroScore : String → Chunk → Int := fun _ _ => 0

/-- C8: whenever the Reference Retrieval Engine reports failure or is
unavailable (`rag_used = false`), a web-search attempt is forced
regardless of the temporal/recency or research-topic vocabulary, the
retrieval argument handed to the response composer is `None`, and the
merged context therefore carries no reference-document block: it is
exactly the patient block followed by the web block. -/
theorem rag_failure_forces_web_and_drops_reference_block
    (rag_available : Bool) (score : String → Chunk → Int)
    (chunks : List Chunk) (ragOutcome : Except String String)
    (message : String) :
    ragUsed rag_available score chunks ragOutcome message = false →
    webSearchAttempted rag_available score chunks ragOutcome message = true ∧
    ragArgument rag_available score chunks ragOutcome message = none ∧
    (∀ pd w, (contextAndSources pd
        (ragArgument rag_available score chunks ragOutcome message) w).1 =
      patientContextParts pd ++ (webContextParts w).1) := by
  intro h
  refine ⟨?_, ?_, ?_⟩
  · simp [webSearchAttempted, h]
  · simp [ragArgument, h]
  · intro pd w
    simp [contextAndSources, ragArgument, h, ragContextParts]

/-- Witness for C8: an unavailable engine forces the web search and an
empty reference block. -/
theorem rag_failure_forces_web_witness :
    ragUsed false zeroScore [] (.ok "answer") "hello" = false ∧
    webSearchAttempted false zeroScore [] (.ok "answer") "hello" = true ∧
    (contextAndSources none (ragArgument false zeroScore [] (.ok "answer") "hello")
        (some "web text")).1 =
      patientContextParts none ++ (webContextParts (some "web text")).1 :=
  ⟨rfl,
   (rag_failure_forces_web_and_drops_reference_block false zeroScore [] (.ok "answer")
      "hello" rfl).1,
   (rag_failure_forces_web_and_drops_reference_block false zeroScore [] (.ok "answer")
      "hello" rfl).2.2 none (some "web text")⟩

theorem ragQuery_sources_length_le (score : String → Chunk → Int)
    (chunks : List Chunk) (outcome : Except String String)
    (question : String) (rs : Bool) :
    (ragQuery score chunks outcome question rs).sources.length ≤ 4 := by
  unfold ragQuery
  rcases outcome with e | answer
  · simp
  · simp only []
    by_cases h : (rs && !(retrieveTopK score question chunks).isEmpty) = true
    · simp only [h, if_true, List.length_map]
      unfold retrieveTopK
      exact List.length_take_le 4 (sortByScore (score question) chunks)
    · simp only [Bool.not_eq_true] at h
      simp [h]

theorem ragContextParts_sources_all_textbook (o : Option RagResult) :
    ((ragContextParts o).2).all (fun x => x.type == "textbook") = true := by
  rcases o with _ | r
  · rfl
  · unfold ragContextParts
    by_cases h : r.success = true
    · simp [h, List.all_eq_true]
    · simp only [Bool.not_eq_true] at h
      simp [h]

theorem ragArgument_sources_length_le (rag_available : Bool)
    (score : String → Chunk → Int) (chunks : List Chunk)
    (ragOutcome : Except String String) (message : String) :
    ((ragContextParts (ragArgument rag_available score chunks ragOutcome message)).2).length ≤ 4 := by
  unfold ragArgument
  by_cases hu : ragUsed rag_available score chunks ragOutcome message = true
  · simp only [hu, if_true]
    unfold ragResultOf
    by_cases ha : rag_available = true
    · simp only [ha, if_true]
      unfold ragContextParts
      by_cases hs : (ragQuery score chunks ragOutcome message true).success = true
      · simp only [hs, if_true, List.length_map]
        exact ragQuery_sources_length_le score chunks ragOutcome message true
      · simp only [Bool.not_eq_true] at hs
        simp [hs]
    · simp only [Bool.not_eq_true] at ha
      simp [ha, ragContextParts]
  · simp only [Bool.not_eq_true] at hu
    simp [hu, ragContextParts]

theorem webContextParts_filter_textbook (o : Option String) :
    ((webContextParts o).2).filter (fun x => x.type == "textbook") = [] := by
  rcases o with _ | w
  · rfl
  · unfold webContextParts
    by_cases h : w.isEmpty = false
    · simp [h]
    · simp only [Bool.not_eq_false] at h
      simp [h]

theorem webArgument_some_shape (rag_available : Bool)
    (score : String → Chunk → Int) (chunks : List Chunk)
    (ragOutcome : Except String String) (webRaw message : String) (w : String) :
    webArgument rag_available score chunks ragOutcome webRaw message = some w →
    w = webRaw ∧ w.isEmpty = false := by
  intro h
  simp only [webArgument, webUsed, webResultsOf] at h
  by_cases ha : webSearchAttempted rag_available score chunks ragOutcome message = true
  · simp only [ha, if_true] at h
    by_cases he : (!webRaw.isEmpty && !strContains webRaw "ERROR") = true
    · simp only [he, if_true] at h
      obtain rfl : webRaw = w := Option.some.inj h
      refine ⟨rfl, ?_⟩
      have h1 := ((Bool.and_eq_true _ _).mp he).1
      simpa using h1
    · simp only [Bool.not_eq_true] at he
      simp [he] at h
  · simp only [Bool.not_eq_true] at ha
    simp [ha] at h

/-- C6: the source list of every turn produced by the Domain-Expert
Handler is the reference-document sources followed by the web sources
(reference entries precede any web entry), contains at most 4
reference-document (`textbook`) entries — one per retrieved chunk — and,
when web search contributed, exactly one `web` entry whose excerpt is a
200-character bound of the raw search text, no matter how many
individual web results were merged into that text; patient data never
contributes a source (the source list is invariant under any change of
the patient-data field). -/
theorem clinical_sources_contract (rag_available : Bool)
    (score : String → Chunk → Int) (chunks : List Chunk)
    (ragOutcome : Except String String) (webRaw llmOut : String)
    (s : AgentState) :
    (clinicalProcess rag_available score chunks ragOutcome webRaw llmOut s).sources =
      (ragContextParts (ragArgument rag_available score chunks ragOutcome s.message)).2 ++
      (webContextParts (webArgument rag_available score chunks ragOutcome webRaw s.message)).2 ∧
    ((ragContextParts (ragArgument rag_available score chunks ragOutcome s.message)).2).all
      (fun x => x.type == "textbook") = true ∧
    ((clinicalProcess rag_available score chunks ragOutcome webRaw llmOut s).sources.filter
      (fun x => x.type == "textbook")).length ≤ 4 ∧
    (∀ w, webArgument rag_available score chunks ragOutcome webRaw s.message = some w →
      (webContextParts (webArgument rag_available score chunks ragOutcome webRaw s.message)).2 =
        [{ type := "web", reference := "Web search results",
           excerpt := w.take 200 ++ "..." }]) ∧
    (webArgument rag_available score chunks ragOutcome webRaw s.message = none →
      (webContextParts (webArgument rag_available score chunks ragOutcome webRaw s.message)).2 = []) ∧
    (∀ pd, (clinicalProcess rag_available score chunks ragOutcome webRaw llmOut
        { s with patient_data := pd }).sources =
      (clinicalProcess rag_available score chunks ragOutcome webRaw llmOut s).sources) := by
  refine ⟨rfl, ragContextParts_sources_all_textbook _, ?_, ?_, ?_, fun pd => rfl⟩
  · have hs : (clinicalProcess rag_available score chunks ragOutcome webRaw llmOut s).sources =
        (ragContextParts (ragArgument rag_available score chunks ragOutcome s.message)).2 ++
        (webContextParts (webArgument rag_available score chunks ragOutcome webRaw s.message)).2 := rfl
    rw [hs, List.filter_append, webContextParts_filter_textbook, List.append_nil]
    calc ((ragContextParts (ragArgument rag_available score chunks ragOutcome s.message)).2.filter
            (fun x => x.type == "textbook")).length
        ≤ ((ragContextParts (ragArgument rag_available score chunks ragOutcome s.message)).2).length :=
          List.length_filter_le _ _
      _ ≤ 4 := ragArgument_sources_length_le rag_available score chunks ragOutcome s.message
  · intro w hw
    obtain ⟨rfl, hne⟩ := webArgument_some_shape rag_available score chunks ragOutcome
      webRaw s.message w hw
    rw [hw]
    simp [webContextParts, hne]
  · intro hn
    rw [hn]
    rfl

/-- Witness for C6: with web search contributing, exactly one bounded
web source follows the reference sources; with an empty web result, no
web source is added. -/
theorem clinical_sources_contract_witness :
    webArgument false zeroScore [] (.ok "ans") "web text" sampleState.message =
      some "web text" ∧
    (webContextParts (webArgument false zeroScore [] (.ok "ans") "web text"
        sampleState.message)).2 =
      [{ type := "web", reference := "Web search results",
         excerpt := "web text".take 200 ++ "..." }] ∧
    webArgument false zeroScore [] (.ok "ans") "" sampleState.message = none ∧
    (webContextParts (webArgument false zeroScore [] (.ok "ans") ""
        sampleState.message)).2 = [] :=
  ⟨by decide,
   (clinical_sources_contract false zeroScore [] (.ok "ans") "web text" "out"
      sampleState).2.2.2.1 "web text" (by decide),
   by decide,
   (clinical_sources_contract false zeroScore [] (.ok "ans") "" "out"
      sampleState).2.2.2.2.1 (by decide)⟩
